import Mathlib

/-!
# spirv-lint command-line driver (`tools/lint/lint.cpp`)

A shallow embedding of the driver of the SPIR-V linter: the `LinterChecks`
enumeration, the `Linter` class, the message consumer `opt_diagnostic`,
`PrintUsage`, `ParseFlags` and `main`, followed by the properties of the
driver that are established about them.

Conventions of the embedding.

* A C string (`const char*`) is the list of its characters before the
  terminating NUL; the type `CStr` carries the fact that none of them is NUL.
  `cur_arg[i]` is `CStr.at cur_arg i`, which is NUL at the terminator.
* `argv` is the list of the `argc` argument strings.
* Effects are recorded as a list of `Event`s, in program order: writes to the
  two output streams, calls of `Linter::scheduleChecks`, calls of `ReadFile`.
* `ReadFile` (tools/io.h) and `spvSoftwareVersionDetailsString` (libspirv) are
  external; they are parameters of the definitions that use them.
-/

namespace Lint

/-! ## C strings -/

/-- The NUL character, which terminates a C string. -/
def NUL : Char := Char.ofNat 0

/-- A C string: its characters before the terminator, none of them NUL. -/
abbrev CStr : Type := { s : List Char // ∀ c ∈ s, c ≠ NUL }

/-- The C string of a string literal that holds no NUL. -/
def lit (s : String) (h : ∀ c ∈ s.toList, c ≠ NUL) : CStr := ⟨s.toList, h⟩

/-- Indexing `s[i]`: the character at `i`, and NUL at the terminator. -/
def CStr.at (s : CStr) (i : Nat) : Char := s.val.getD i NUL

/-- Character-wise comparison of two character sequences as `strcmp` does it:
the difference of the first pair of characters that differ, the terminator
counting as NUL, and zero when there is none. -/
def strcmpAux : List Char → List Char → Int
  | [], [] => 0
  | [], d :: _ => (NUL.toNat : Int) - (d.toNat : Int)
  | c :: _, [] => (c.toNat : Int) - (NUL.toNat : Int)
  | c :: cs, d :: ds =>
    if c = d then strcmpAux cs ds else (c.toNat : Int) - (d.toNat : Int)

/-- The C library function `strcmp`. -/
def strcmp (a b : CStr) : Int := strcmpAux a.val b.val

/-- The text of a C string, as `printf("%s")` writes it. -/
def CStr.text (s : CStr) : String := String.mk s.val

/-! ## The flags of the command line -/

def flag_version : CStr := lit "--version" (by decide)
def flag_help : CStr := lit "--help" (by decide)
def flag_h : CStr := lit "-h" (by decide)
def flag_check_derivatives : CStr := lit "--check-derivatives" (by decide)
def flag_check_undefs : CStr := lit "--check-undefs" (by decide)
def flag_check_all : CStr := lit "--check-all" (by decide)
def dash : CStr := lit "-" (by decide)

/-! ## The linter -/

/-- The enumeration `LinterChecks`. -/
inductive LinterChecks where
  | DERIVATIVES
  | UNDEFS
  | ALL
  deriving DecidableEq, Repr

/-- The class `Linter`: it has no data member. -/
structure Linter where
  deriving DecidableEq, Repr

/-- The member function `Linter::scheduleChecks`, whose body is empty: the
linter after the call is the linter before it. -/
def Linter.scheduleChecks (self : Linter) (_checks : List LinterChecks) : Linter := self

/-! ## Effects -/

/-- The levels of `spv_message_level_t`. -/
inductive spv_message_level_t where
  | SPV_MSG_FATAL
  | SPV_MSG_INTERNAL_ERROR
  | SPV_MSG_ERROR
  | SPV_MSG_WARNING
  | SPV_MSG_INFO
  | SPV_MSG_DEBUG
  deriving DecidableEq, Repr

/-- An observable effect of the driver. -/
inductive Event where
  /-- A write to the standard output stream (`printf`). -/
  | out (text : String)
  /-- A write to the standard error stream (`fprintf(stderr, ...)`). -/
  | err (text : String)
  /-- A call of `Linter::scheduleChecks` with the given vector. -/
  | schedule (checks : List LinterChecks)
  /-- A call of `ReadFile` on the given file name (`none` is the null pointer). -/
  | read (in_file : Option CStr)
  deriving DecidableEq

/-- A message consumer, as the logging helpers take one. -/
abbrev MessageConsumer : Type := spv_message_level_t → String → List Event

/-- The message consumer of the tool, `opt_diagnostic`. -/
def opt_diagnostic : MessageConsumer := fun level message =>
  (if level = spv_message_level_t.SPV_MSG_ERROR then [Event.err "error: "] else [])
    ++ [Event.err (message ++ "\n")]

/-- Modelled from the spec: `spvtools::Error` is declared in source/opt/log.h,
which is not among the sources. A usage error is "reported through the
Diagnostic Consumer at error severity": the consumer is called once, with the
level `SPV_MSG_ERROR` and the message. -/
def Error (consumer : MessageConsumer) (message : String) : List Event :=
  consumer spv_message_level_t.SPV_MSG_ERROR message

/-- Modelled from the spec: `spvtools::Logf` is declared in source/opt/log.h,
which is not among the sources. It hands the formatted message to the consumer
at the given level; the only format the driver uses is `"%s\n"`, whose result
is the argument followed by a newline. -/
def Logf (consumer : MessageConsumer) (level : spv_message_level_t) (arg : String) :
    List Event :=
  consumer level (arg ++ "\n")

/-- The function `PrintUsage`: six calls of `printf`. -/
def PrintUsage (program : CStr) : List Event :=
  [ Event.out (program.text ++ " - Lint a SPIR-V binary file.\n\nUSAGE: " ++ program.text ++
      " [options] [<input>]\n\nThe SPIR-V binary is read from <input>. If no file is specified,\n" ++
      "or if <input> is \"-\", then the binary is read from standard input.\n\n" ++
      "NOTE: The linter is experimental.\n\nOptions (in lexicographical order):"),
    Event.out "\n  --check-all\n               Run all linter checks.",
    Event.out "\n  --check-derivatives\n               Check implicit derivatives.",
    Event.out "\n  --check-undefs\n               Check uses of undefined values.",
    Event.out "\n  -h, --help\n               Print this help.",
    Event.out "\n  --version\n               Display linter version information.\n" ]

/-! ## Parsing the flags -/

/-- What `ParseFlags` leaves behind: its return value, the pointer it stored in
`*in_file`, the linter, and the effects it had. -/
structure ParseResult where
  ret : Bool
  in_file : Option CStr
  linter : Linter
  events : List Event
  deriving DecidableEq

/-- The loop of `ParseFlags` over the arguments that remain, with the local
`linter_checks` and the current `*in_file`, followed by the two statements
after the loop. `version` is the result of `spvSoftwareVersionDetailsString`,
`program` is `argv[0]`. Every statement of the loop that has an effect is
followed by a `return`, so the effects of a run are those of its last turn. -/
def ParseFlags.loop (version : String) (program : CStr) (linter : Linter) :
    List CStr → List LinterChecks → Option CStr → ParseResult
  | [], linter_checks, in_file =>
    { ret := true, in_file := in_file,
      linter := linter.scheduleChecks linter_checks,
      events := [Event.schedule linter_checks] }
  | cur_arg :: rest, linter_checks, in_file =>
    if '-' = cur_arg.at 0 then
      if 0 = strcmp cur_arg flag_version then
        { ret := false, in_file := in_file, linter := linter,
          events := Logf opt_diagnostic spv_message_level_t.SPV_MSG_INFO version }
      else if 0 = strcmp cur_arg flag_help ∨ 0 = strcmp cur_arg flag_h then
        { ret := false, in_file := in_file, linter := linter,
          events := PrintUsage program }
      else if NUL = cur_arg.at 1 then
        if in_file = none then
          ParseFlags.loop version program linter rest linter_checks (some cur_arg)
        else
          { ret := false, in_file := in_file, linter := linter,
            events := Error opt_diagnostic "More than one input file specified" }
      else if 0 = strcmp cur_arg flag_check_derivatives then
        ParseFlags.loop version program linter rest
          (linter_checks ++ [LinterChecks.DERIVATIVES]) in_file
      else if 0 = strcmp cur_arg flag_check_undefs then
        ParseFlags.loop version program linter rest
          (linter_checks ++ [LinterChecks.UNDEFS]) in_file
      else if 0 = strcmp cur_arg flag_check_all then
        ParseFlags.loop version program linter rest
          (linter_checks ++ [LinterChecks.ALL]) in_file
      else
        ParseFlags.loop version program linter rest linter_checks in_file
    else
      if in_file = none then
        ParseFlags.loop version program linter rest linter_checks (some cur_arg)
      else
        { ret := false, in_file := in_file, linter := linter,
          events := Error opt_diagnostic "More than one input file specified" }

/-- The function `ParseFlags`: `linter_checks` starts empty, `*in_file` is set to
the null pointer, and the loop runs over `argv[1]`, ..., `argv[argc - 1]`. -/
def ParseFlags (version : String) (argv : List CStr) (linter : Linter) : ParseResult :=
  ParseFlags.loop version (argv.headD ⟨[], by simp⟩) linter (argv.drop 1) [] none

/-! ## The entry point -/

/-- What a run of `main` leaves behind: the exit code and the effects. -/
structure Run where
  code : Int
  events : List Event
  deriving DecidableEq

/-- The function `main`. `ReadFile` gives, for a file name, whether reading it
succeeds; the words it reads are not used. -/
def main (ReadFile : Option CStr → Bool) (version : String) (argv : List CStr) : Run :=
  let linter : Linter := {}
  let r := ParseFlags version argv linter
  if !r.ret then
    { code := 2, events := r.events }
  else if !ReadFile r.in_file then
    { code := 1, events := r.events ++ [Event.read r.in_file] }
  else
    { code := 0, events := r.events ++ [Event.read r.in_file] }

/-! ## Vocabulary of the command line

The words in which the properties of the driver are phrased. -/

/-- A terminal flag: `--help`, `-h` or `--version`. -/
def isTerminal (t : CStr) : Prop := t = flag_help ∨ t = flag_h ∨ t = flag_version

instance : DecidablePred isTerminal := fun t => by unfold isTerminal; infer_instance

/-- The token starts with the character `-`. -/
def startsWithDash (t : CStr) : Prop := t.val.head? = some '-'

instance : DecidablePred startsWithDash := fun t => by unfold startsWithDash; infer_instance

/-- An input-source token: exactly `-`, or not starting with `-`. -/
def isInputSource (t : CStr) : Prop := t = dash ∨ ¬ startsWithDash t

instance : DecidablePred isInputSource := fun t => by unfold isInputSource; infer_instance

/-- The kind a check-selecting flag stands for: `--check-derivatives`,
`--check-undefs` and `--check-all` stand for `DERIVATIVES`, `UNDEFS` and `ALL`;
no other token stands for a kind. -/
def checkOf (t : CStr) : Option LinterChecks :=
  if t = flag_check_derivatives then some LinterChecks.DERIVATIVES
  else if t = flag_check_undefs then some LinterChecks.UNDEFS
  else if t = flag_check_all then some LinterChecks.ALL
  else none

/-- A check-selecting flag. -/
def isCheckFlag (t : CStr) : Prop :=
  t = flag_check_derivatives ∨ t = flag_check_undefs ∨ t = flag_check_all

instance : DecidablePred isCheckFlag := fun t => by unfold isCheckFlag; infer_instance

/-- A malformed flag: it starts with `-`, is not exactly `-`, and is none of the
six flags of the tool. -/
def isMalformed (t : CStr) : Prop :=
  startsWithDash t ∧ t ≠ dash ∧ ¬ isTerminal t ∧ ¬ isCheckFlag t

instance : DecidablePred isMalformed := fun t => by unfold isMalformed; infer_instance

/-- The input-source tokens of a list of tokens, in order. -/
def inputSources (args : List CStr) : List CStr := args.filter (fun t => isInputSource t)

/-- The calls of `Linter::scheduleChecks` among some effects: the vector each
received, in order. -/
def scheduleCalls : List Event → List (List LinterChecks)
  | [] => []
  | Event.schedule checks :: es => checks :: scheduleCalls es
  | _ :: es => scheduleCalls es

/-- The calls of `ReadFile` among some effects: the file name each received. -/
def readCalls : List Event → List (Option CStr)
  | [] => []
  | Event.read in_file :: es => in_file :: readCalls es
  | _ :: es => readCalls es

/-- The writes to the two output streams among some effects, in order: the
diagnostics and the usage text. -/
def writes : List Event → List Event
  | [] => []
  | Event.out text :: es => Event.out text :: writes es
  | Event.err text :: es => Event.err text :: writes es
  | _ :: es => writes es

/-- The message of the usage error for a second input source. -/
def moreThanOne : String := "More than one input file specified"

/-- The result of `ParseFlags` when it stops at a second input source. -/
def secondInput (linter : Linter) (in_file : Option CStr) : ParseResult :=
  { ret := false, in_file := in_file, linter := linter,
    events := Error opt_diagnostic moreThanOne }

/-! ## The scheduler as the specification describes it -/

namespace Spec

/-- Modelled from the spec: the Check Registry, which the sources do not have.
"Given a `CheckKind`, return the ordered list of concrete (non-meta) checks it
denotes. `All` expands to the full, fixed list of concrete checks". -/
def expand : LinterChecks → List LinterChecks
  | LinterChecks.DERIVATIVES => [LinterChecks.DERIVATIVES]
  | LinterChecks.UNDEFS => [LinterChecks.UNDEFS]
  | LinterChecks.ALL => [LinterChecks.DERIVATIVES, LinterChecks.UNDEFS]

/-- Removal of duplicates that keeps the first occurrence of each check. -/
def dedupFirst : List LinterChecks → List LinterChecks
  | [] => []
  | c :: cs => c :: (dedupFirst cs).filter (fun d => d ≠ c)

/-- Modelled from the spec: the pending work that `scheduleChecks(requestedKinds)`
stores according to the specification: it "expands each kind via the Registry,
deduplicates while preserving first-occurrence order, and stores the resulting
concrete-check sequence as pending work". -/
def scheduleChecks (requestedKinds : List LinterChecks) : List LinterChecks :=
  dedupFirst (requestedKinds.flatMap expand)

end Spec

/-! ## Concrete command lines -/

def spirv_lint : CStr := lit "spirv-lint" (by decide)
def a_spv : CStr := lit "a.spv" (by decide)
def flag_bogus : CStr := lit "--bogus" (by decide)

/-- A `ReadFile` that succeeds on every file. -/
def readOk : Option CStr → Bool := fun _ => true

/-- A `ReadFile` that fails on every file. -/
def readFails : Option CStr → Bool := fun _ => false

/-- A `ReadFile` that succeeds on `a.spv` only. -/
def readOnlyA : Option CStr → Bool := fun f => decide (f = some a_spv)

/-! ## Facts about C strings -/

theorem char_toNat_inj {c d : Char} (h : c.toNat = d.toNat) : c = d := by
  apply Char.eq_of_val_eq
  apply UInt32.eq_of_val_eq
  apply Fin.eq_of_val_eq
  exact h

theorem NUL_toNat : NUL.toNat = 0 := by decide

theorem toNat_ne_zero {c : Char} (h : c ≠ NUL) : c.toNat ≠ 0 :=
  fun h0 => h (char_toNat_inj (by rw [h0, NUL_toNat]))

theorem strcmpAux_eq_zero_iff (a b : List Char) (ha : ∀ c ∈ a, c ≠ NUL)
    (hb : ∀ c ∈ b, c ≠ NUL) : strcmpAux a b = 0 ↔ a = b := by
  induction a generalizing b with
  | nil =>
    cases b with
    | nil => simp [strcmpAux]
    | cons d ds =>
      have hd := toNat_ne_zero (hb d (by simp))
      simp [strcmpAux, NUL_toNat]
      omega
  | cons c cs ih =>
    cases b with
    | nil =>
      have hc := toNat_ne_zero (ha c (by simp))
      simp [strcmpAux, NUL_toNat]
      omega
    | cons d ds =>
      by_cases hcd : c = d
      · subst hcd
        have := ih ds (fun x hx => ha x (by simp [hx])) (fun x hx => hb x (by simp [hx]))
        simp [strcmpAux, this]
      · have : c.toNat ≠ d.toNat := fun h => hcd (char_toNat_inj h)
        simp [strcmpAux, hcd]
        omega

/-- The test `0 == strcmp(a, b)` holds exactly when the two strings are equal. -/
theorem strcmp_eq_zero_iff (a b : CStr) : 0 = strcmp a b ↔ a = b := by
  rw [eq_comm, strcmp, strcmpAux_eq_zero_iff a.val b.val a.property b.property]
  exact Subtype.ext_iff.symm

/-- The test `'-' == cur_arg[0]` holds exactly when the token starts with `-`. -/
theorem at_zero_iff (t : CStr) : '-' = t.at 0 ↔ startsWithDash t := by
  obtain ⟨s, hs⟩ := t
  cases s with
  | nil => simp [CStr.at, startsWithDash, NUL]
  | cons c cs => simp [CStr.at, startsWithDash, eq_comm]

/-- For a token that starts with `-`, the test `'\0' == cur_arg[1]` holds exactly
when the token is `-`. -/
theorem at_one_iff (t : CStr) (h : startsWithDash t) : NUL = t.at 1 ↔ t = dash := by
  obtain ⟨s, hs⟩ := t
  cases s with
  | nil => simp [startsWithDash] at h
  | cons c cs =>
    have hc : c = '-' := by simpa [startsWithDash] using h
    subst hc
    cases cs with
    | nil => simp [CStr.at, dash, lit]
    | cons d ds =>
      have hd : d ≠ NUL := hs d (by simp)
      simp [CStr.at, dash, lit, Subtype.ext_iff, eq_comm, hd]

theorem startsWithDash_of_isTerminal {t : CStr} (h : isTerminal t) : startsWithDash t := by
  rcases h with h | h | h <;> subst h <;> decide

theorem startsWithDash_of_isCheckFlag {t : CStr} (h : isCheckFlag t) : startsWithDash t := by
  rcases h with h | h | h <;> subst h <;> decide

theorem startsWithDash_dash : startsWithDash dash := by decide

/-! ## One turn of the loop, by the kind of the token -/

theorem flags_distinct :
    flag_version ≠ flag_help ∧ flag_version ≠ flag_h ∧ flag_version ≠ dash ∧
    flag_help ≠ dash ∧ flag_h ≠ dash ∧
    flag_check_derivatives ≠ flag_version ∧ flag_check_derivatives ≠ flag_help ∧
    flag_check_derivatives ≠ flag_h ∧ flag_check_derivatives ≠ dash ∧
    flag_check_undefs ≠ flag_version ∧ flag_check_undefs ≠ flag_help ∧
    flag_check_undefs ≠ flag_h ∧ flag_check_undefs ≠ dash ∧
    flag_check_undefs ≠ flag_check_derivatives ∧
    flag_check_all ≠ flag_version ∧ flag_check_all ≠ flag_help ∧
    flag_check_all ≠ flag_h ∧ flag_check_all ≠ dash ∧
    flag_check_all ≠ flag_check_derivatives ∧ flag_check_all ≠ flag_check_undefs := by
  decide

theorem loop_nil (version : String) (program : CStr) (linter : Linter)
    (cs : List LinterChecks) (f : Option CStr) :
    ParseFlags.loop version program linter [] cs f =
      { ret := true, in_file := f, linter := linter.scheduleChecks cs,
        events := [Event.schedule cs] } := by
  rw [ParseFlags.loop]

theorem loop_version (version : String) (program : CStr) (linter : Linter)
    (rest : List CStr) (cs : List LinterChecks) (f : Option CStr) :
    ParseFlags.loop version program linter (flag_version :: rest) cs f =
      { ret := false, in_file := f, linter := linter,
        events := Logf opt_diagnostic spv_message_level_t.SPV_MSG_INFO version } := by
  rw [ParseFlags.loop]
  simp [at_zero_iff, strcmp_eq_zero_iff, startsWithDash_of_isTerminal (t := flag_version)
    (Or.inr (Or.inr rfl))]

theorem loop_help (version : String) (program : CStr) (linter : Linter)
    (t : CStr) (ht : t = flag_help ∨ t = flag_h)
    (rest : List CStr) (cs : List LinterChecks) (f : Option CStr) :
    ParseFlags.loop version program linter (t :: rest) cs f =
      { ret := false, in_file := f, linter := linter, events := PrintUsage program } := by
  have hd : startsWithDash t := startsWithDash_of_isTerminal (by
    rcases ht with h | h
    · exact Or.inl h
    · exact Or.inr (Or.inl h))
  have hv : t ≠ flag_version := by
    rcases ht with h | h <;> subst h <;> decide
  rw [ParseFlags.loop]
  simp [at_zero_iff, strcmp_eq_zero_iff, hd, hv, ht]

theorem loop_input (version : String) (program : CStr) (linter : Linter)
    (t : CStr) (ht : isInputSource t)
    (rest : List CStr) (cs : List LinterChecks) (f : Option CStr) :
    ParseFlags.loop version program linter (t :: rest) cs f =
      if f = none then ParseFlags.loop version program linter rest cs (some t)
      else secondInput linter f := by
  rw [ParseFlags.loop]
  by_cases hd : startsWithDash t
  · have hdash : t = dash := by
      rcases ht with h | h
      · exact h
      · exact absurd hd h
    subst hdash
    have h1 : dash ≠ flag_version := by decide
    have h2 : dash ≠ flag_help := by decide
    have h3 : dash ≠ flag_h := by decide
    simp [at_zero_iff, strcmp_eq_zero_iff, hd, at_one_iff dash hd, h1, h2, h3, secondInput,
      moreThanOne]
  · simp [at_zero_iff, hd, secondInput, moreThanOne]

theorem loop_check (version : String) (program : CStr) (linter : Linter)
    (t : CStr) (k : LinterChecks) (ht : checkOf t = some k)
    (rest : List CStr) (cs : List LinterChecks) (f : Option CStr) :
    ParseFlags.loop version program linter (t :: rest) cs f =
      ParseFlags.loop version program linter rest (cs ++ [k]) f := by
  obtain ⟨h1, h2, h3, h4, h5, d1, d2, d3, d4, u1, u2, u3, u4, u5, a1, a2, a3, a4, a5, a6⟩ :=
    flags_distinct
  unfold checkOf at ht
  rw [ParseFlags.loop]
  split at ht
  · rename_i h
    subst h
    cases ht
    have hd : startsWithDash flag_check_derivatives := by decide
    simp [at_zero_iff, strcmp_eq_zero_iff, hd, at_one_iff _ hd, d1, d2, d3, d4]
  · split at ht
    · rename_i _ h
      subst h
      cases ht
      have hd : startsWithDash flag_check_undefs := by decide
      simp [at_zero_iff, strcmp_eq_zero_iff, hd, at_one_iff _ hd, u1, u2, u3, u4, u5]
    · split at ht
      · rename_i _ _ h
        subst h
        cases ht
        have hd : startsWithDash flag_check_all := by decide
        simp [at_zero_iff, strcmp_eq_zero_iff, hd, at_one_iff _ hd, a1, a2, a3, a4, a5, a6]
      · cases ht

theorem loop_malformed (version : String) (program : CStr) (linter : Linter)
    (t : CStr) (ht : isMalformed t)
    (rest : List CStr) (cs : List LinterChecks) (f : Option CStr) :
    ParseFlags.loop version program linter (t :: rest) cs f =
      ParseFlags.loop version program linter rest cs f := by
  obtain ⟨hd, hdash, hterm, hcheck⟩ := ht
  simp only [isTerminal, not_or] at hterm
  simp only [isCheckFlag, not_or] at hcheck
  rw [ParseFlags.loop]
  simp [at_zero_iff, strcmp_eq_zero_iff, hd, at_one_iff t hd, hdash, hterm, hcheck]

/-- Every token is of one of four kinds. -/
theorem token_kinds (t : CStr) :
    isTerminal t ∨ isInputSource t ∨ isCheckFlag t ∨ isMalformed t := by
  unfold isMalformed isInputSource
  by_cases h1 : isTerminal t
  · exact Or.inl h1
  by_cases h2 : t = dash
  · exact Or.inr (Or.inl (Or.inl h2))
  by_cases h3 : startsWithDash t
  · by_cases h4 : isCheckFlag t
    · exact Or.inr (Or.inr (Or.inl h4))
    · exact Or.inr (Or.inr (Or.inr ⟨h3, h2, h1, h4⟩))
  · exact Or.inr (Or.inl (Or.inr h3))

/-! ## The four kinds exclude one another -/

theorem checkOf_isSome_iff (t : CStr) : (∃ k, checkOf t = some k) ↔ isCheckFlag t := by
  unfold checkOf isCheckFlag
  by_cases h1 : t = flag_check_derivatives
  · simp [h1]
  by_cases h2 : t = flag_check_undefs
  · rw [if_neg h1, if_pos h2]
    simp [h2]
  by_cases h3 : t = flag_check_all
  · rw [if_neg h1, if_neg h2, if_pos h3]
    simp [h3]
  simp [h1, h2, h3]

theorem checkOf_eq_none_iff (t : CStr) : checkOf t = none ↔ ¬ isCheckFlag t := by
  rw [← checkOf_isSome_iff]
  cases checkOf t <;> simp

theorem not_isInputSource_of_isTerminal {t : CStr} (h : isTerminal t) : ¬ isInputSource t := by
  rcases h with h | h | h <;> subst h <;> decide

theorem not_isCheckFlag_of_isTerminal {t : CStr} (h : isTerminal t) : ¬ isCheckFlag t := by
  rcases h with h | h | h <;> subst h <;> decide

theorem not_isInputSource_of_isCheckFlag {t : CStr} (h : isCheckFlag t) : ¬ isInputSource t := by
  rcases h with h | h | h <;> subst h <;> decide

theorem not_isTerminal_of_isInputSource {t : CStr} (h : isInputSource t) : ¬ isTerminal t :=
  fun ht => not_isInputSource_of_isTerminal ht h

theorem not_isCheckFlag_of_isInputSource {t : CStr} (h : isInputSource t) : ¬ isCheckFlag t :=
  fun ht => not_isInputSource_of_isCheckFlag ht h

theorem not_isTerminal_of_isCheckFlag {t : CStr} (h : isCheckFlag t) : ¬ isTerminal t :=
  fun ht => not_isCheckFlag_of_isTerminal ht h

theorem not_isInputSource_of_isMalformed {t : CStr} (h : isMalformed t) : ¬ isInputSource t := by
  obtain ⟨hd, hdash, _, _⟩ := h
  rintro (h | h)
  · exact hdash h
  · exact h hd

theorem not_isTerminal_of_isMalformed {t : CStr} (h : isMalformed t) : ¬ isTerminal t := h.2.2.1

theorem not_isCheckFlag_of_isMalformed {t : CStr} (h : isMalformed t) : ¬ isCheckFlag t := h.2.2.2

/-- One turn of the loop at a terminal flag: it returns false, keeps `*in_file`
and the linter, and only writes text. -/
theorem loop_terminal (version : String) (program : CStr) (linter : Linter)
    (t : CStr) (ht : isTerminal t)
    (rest : List CStr) (cs : List LinterChecks) (f : Option CStr) :
    ParseFlags.loop version program linter (t :: rest) cs f =
      { ret := false, in_file := f, linter := linter,
        events := if t = flag_version
          then Logf opt_diagnostic spv_message_level_t.SPV_MSG_INFO version
          else PrintUsage program } := by
  rcases ht with h | h | h
  · have : t ≠ flag_version := by subst h; decide
    rw [loop_help version program linter t (Or.inl h), if_neg this]
  · have : t ≠ flag_version := by subst h; decide
    rw [loop_help version program linter t (Or.inr h), if_neg this]
  · subst h
    rw [loop_version, if_pos rfl]

/-! ## Effects of the pieces -/

theorem scheduleCalls_PrintUsage (program : CStr) : scheduleCalls (PrintUsage program) = [] := rfl

theorem readCalls_PrintUsage (program : CStr) : readCalls (PrintUsage program) = [] := rfl

theorem writes_PrintUsage (program : CStr) : writes (PrintUsage program) = PrintUsage program := rfl

theorem scheduleCalls_opt_diagnostic (level : spv_message_level_t) (message : String) :
    scheduleCalls (opt_diagnostic level message) = [] := by
  unfold opt_diagnostic
  split <;> rfl

theorem readCalls_opt_diagnostic (level : spv_message_level_t) (message : String) :
    readCalls (opt_diagnostic level message) = [] := by
  unfold opt_diagnostic
  split <;> rfl

theorem writes_opt_diagnostic (level : spv_message_level_t) (message : String) :
    writes (opt_diagnostic level message) = opt_diagnostic level message := by
  unfold opt_diagnostic
  split <;> rfl

theorem scheduleCalls_append (xs ys : List Event) :
    scheduleCalls (xs ++ ys) = scheduleCalls xs ++ scheduleCalls ys := by
  induction xs with
  | nil => rfl
  | cons e es ih => cases e <;> simp [scheduleCalls, ih]

theorem readCalls_append (xs ys : List Event) :
    readCalls (xs ++ ys) = readCalls xs ++ readCalls ys := by
  induction xs with
  | nil => rfl
  | cons e es ih => cases e <;> simp [readCalls, ih]

theorem writes_append (xs ys : List Event) : writes (xs ++ ys) = writes xs ++ writes ys := by
  induction xs with
  | nil => rfl
  | cons e es ih => cases e <;> simp [writes, ih]

/-! ## The loop as a whole -/

theorem inputSources_cons_pos {t : CStr} (h : isInputSource t) (args : List CStr) :
    inputSources (t :: args) = t :: inputSources args := by
  simp [inputSources, List.filter_cons, h]

theorem inputSources_cons_neg {t : CStr} (h : ¬ isInputSource t) (args : List CStr) :
    inputSources (t :: args) = inputSources args := by
  simp [inputSources, List.filter_cons, h]

theorem filterMap_checkOf_cons_none {t : CStr} (h : ¬ isCheckFlag t) (args : List CStr) :
    (t :: args).filterMap checkOf = args.filterMap checkOf := by
  rw [List.filterMap_cons, (checkOf_eq_none_iff t).2 h]

/-- When the loop returns: it returns true exactly when no remaining token is a
terminal flag and the input sources, the one already stored included, are at
most one. -/
theorem loop_ret_iff (version : String) (program : CStr) (linter : Linter)
    (args : List CStr) (cs : List LinterChecks) (f : Option CStr) :
    (ParseFlags.loop version program linter args cs f).ret = true ↔
      (∀ t ∈ args, ¬ isTerminal t) ∧
        (inputSources args).length + (if f = none then 0 else 1) ≤ 1 := by
  induction args generalizing cs f with
  | nil => simp [loop_nil, inputSources]; split <;> omega
  | cons t rest ih =>
    rcases token_kinds t with ht | ht | ht | ht
    · rw [loop_terminal version program linter t ht]
      simp [ht]
    · rw [loop_input version program linter t ht, inputSources_cons_pos ht]
      have hnt := not_isTerminal_of_isInputSource ht
      by_cases hf : f = none
      · rw [if_pos hf, ih]
        simp [hnt, hf]
      · rw [if_neg hf]
        simp [secondInput, hf]
    · obtain ⟨k, hk⟩ := (checkOf_isSome_iff t).2 ht
      rw [loop_check version program linter t k hk, ih,
        inputSources_cons_neg (not_isInputSource_of_isCheckFlag ht)]
      simp [not_isTerminal_of_isCheckFlag ht]
    · rw [loop_malformed version program linter t ht, ih,
        inputSources_cons_neg (not_isInputSource_of_isMalformed ht)]
      simp [not_isTerminal_of_isMalformed ht]

/-- What the loop leaves behind when it returns true: the input source already
stored or else the first of the remaining ones, and one call of
`scheduleChecks` with the kinds collected so far followed by those of the
remaining check flags, in order. -/
theorem loop_of_ret_true (version : String) (program : CStr) (linter : Linter)
    (args : List CStr) (cs : List LinterChecks) (f : Option CStr)
    (h : (ParseFlags.loop version program linter args cs f).ret = true) :
    ParseFlags.loop version program linter args cs f =
      { ret := true,
        in_file := if f = none then (inputSources args).head? else f,
        linter := linter.scheduleChecks (cs ++ args.filterMap checkOf),
        events := [Event.schedule (cs ++ args.filterMap checkOf)] } := by
  induction args generalizing cs f with
  | nil =>
    by_cases hf : f = none
    · simp [loop_nil, inputSources, hf]
    · simp [loop_nil, inputSources, hf]
  | cons t rest ih =>
    rcases token_kinds t with ht | ht | ht | ht
    · rw [loop_terminal version program linter t ht] at h
      simp at h
    · rw [loop_input version program linter t ht] at h ⊢
      by_cases hf : f = none
      · rw [if_pos hf] at h ⊢
        rw [ih _ _ h, inputSources_cons_pos ht,
          filterMap_checkOf_cons_none (not_isCheckFlag_of_isInputSource ht)]
        simp [hf]
      · rw [if_neg hf] at h
        simp [secondInput] at h
    · obtain ⟨k, hk⟩ := (checkOf_isSome_iff t).2 ht
      rw [loop_check version program linter t k hk] at h ⊢
      rw [ih _ _ h, inputSources_cons_neg (not_isInputSource_of_isCheckFlag ht),
        List.filterMap_cons, hk]
      simp [Linter.scheduleChecks]
    · rw [loop_malformed version program linter t ht] at h ⊢
      rw [ih _ _ h, inputSources_cons_neg (not_isInputSource_of_isMalformed ht),
        filterMap_checkOf_cons_none (not_isCheckFlag_of_isMalformed ht)]

/-- What the loop leaves behind when it returns false: the linter as it was,
no call of `scheduleChecks`, and only writes to the output streams. -/
theorem loop_of_ret_false (version : String) (program : CStr) (linter : Linter)
    (args : List CStr) (cs : List LinterChecks) (f : Option CStr)
    (h : (ParseFlags.loop version program linter args cs f).ret = false) :
    (ParseFlags.loop version program linter args cs f).linter = linter ∧
      scheduleCalls (ParseFlags.loop version program linter args cs f).events = [] ∧
      writes (ParseFlags.loop version program linter args cs f).events =
        (ParseFlags.loop version program linter args cs f).events := by
  induction args generalizing cs f with
  | nil => simp [loop_nil] at h
  | cons t rest ih =>
    rcases token_kinds t with ht | ht | ht | ht
    · rw [loop_terminal version program linter t ht]
      by_cases hv : t = flag_version
      · simp [hv, Logf, scheduleCalls_opt_diagnostic, writes_opt_diagnostic]
      · simp [hv, scheduleCalls_PrintUsage, writes_PrintUsage]
    · rw [loop_input version program linter t ht] at h ⊢
      by_cases hf : f = none
      · rw [if_pos hf] at h ⊢
        exact ih _ _ h
      · rw [if_neg hf]
        simp [secondInput, Error, scheduleCalls_opt_diagnostic, writes_opt_diagnostic]
    · obtain ⟨k, hk⟩ := (checkOf_isSome_iff t).2 ht
      rw [loop_check version program linter t k hk] at h ⊢
      exact ih _ _ h
    · rw [loop_malformed version program linter t ht] at h ⊢
      exact ih _ _ h

/-- The loop never calls `ReadFile`. -/
theorem loop_readCalls (version : String) (program : CStr) (linter : Linter)
    (args : List CStr) (cs : List LinterChecks) (f : Option CStr) :
    readCalls (ParseFlags.loop version program linter args cs f).events = [] := by
  induction args generalizing cs f with
  | nil => simp [loop_nil, readCalls]
  | cons t rest ih =>
    rcases token_kinds t with ht | ht | ht | ht
    · rw [loop_terminal version program linter t ht]
      by_cases hv : t = flag_version
      · simp [hv, Logf, readCalls_opt_diagnostic]
      · simp [hv, readCalls_PrintUsage]
    · rw [loop_input version program linter t ht]
      by_cases hf : f = none
      · rw [if_pos hf]
        exact ih _ _
      · rw [if_neg hf]
        simp [secondInput, Error, readCalls_opt_diagnostic]
    · obtain ⟨k, hk⟩ := (checkOf_isSome_iff t).2 ht
      rw [loop_check version program linter t k hk]
      exact ih _ _
    · rw [loop_malformed version program linter t ht]
      exact ih _ _

/-- Tokens that are neither terminal flags nor input sources are passed over:
the loop goes on with the kinds of the check flags among them appended. -/
theorem loop_skip (version : String) (program : CStr) (linter : Linter)
    (pre rest : List CStr) (cs : List LinterChecks) (f : Option CStr)
    (hpre : ∀ t ∈ pre, ¬ isTerminal t ∧ ¬ isInputSource t) :
    ParseFlags.loop version program linter (pre ++ rest) cs f =
      ParseFlags.loop version program linter rest (cs ++ pre.filterMap checkOf) f := by
  induction pre generalizing cs with
  | nil => simp
  | cons t pre ih =>
    have ht := hpre t (by simp)
    have hrest : ∀ x ∈ pre, ¬ isTerminal x ∧ ¬ isInputSource x :=
      fun x hx => hpre x (by simp [hx])
    rw [List.cons_append]
    rcases token_kinds t with h | h | h | h
    · exact absurd h ht.1
    · exact absurd h ht.2
    · obtain ⟨k, hk⟩ := (checkOf_isSome_iff t).2 h
      rw [loop_check version program linter t k hk, ih _ hrest, List.filterMap_cons, hk]
      simp
    · rw [loop_malformed version program linter t h, ih _ hrest,
        filterMap_checkOf_cons_none (not_isCheckFlag_of_isMalformed h)]

/-- Malformed flags are passed over: the loop does on a list of tokens what it
does on the list without its malformed flags. -/
theorem loop_filter_malformed (version : String) (program : CStr) (linter : Linter)
    (args : List CStr) (cs : List LinterChecks) (f : Option CStr) :
    ParseFlags.loop version program linter (args.filter (fun t => ¬ isMalformed t)) cs f =
      ParseFlags.loop version program linter args cs f := by
  induction args generalizing cs f with
  | nil => rfl
  | cons t rest ih =>
    by_cases hm : isMalformed t
    · rw [loop_malformed version program linter t hm, ← ih]
      simp [List.filter_cons, hm]
    · have hfil : (t :: rest).filter (fun t => ¬ isMalformed t) =
          t :: rest.filter (fun t => ¬ isMalformed t) := by
        simp [List.filter_cons, hm]
      rw [hfil]
      rcases token_kinds t with h | h | h | h
      · rw [loop_terminal version program linter t h, loop_terminal version program linter t h]
      · rw [loop_input version program linter t h, loop_input version program linter t h, ih]
      · obtain ⟨k, hk⟩ := (checkOf_isSome_iff t).2 h
        rw [loop_check version program linter t k hk, loop_check version program linter t k hk,
          ih]
      · exact absurd h hm

/-- Without a terminal flag the loop returns false only at a second input
source, with the first one still in `*in_file`. -/
theorem loop_of_ret_false_of_no_terminal (version : String) (program : CStr)
    (linter : Linter) (args : List CStr) (cs : List LinterChecks) (f : Option CStr)
    (hnt : ∀ t ∈ args, ¬ isTerminal t)
    (h : (ParseFlags.loop version program linter args cs f).ret = false) :
    ParseFlags.loop version program linter args cs f =
      secondInput linter (if f = none then (inputSources args).head? else f) := by
  induction args generalizing cs f with
  | nil => simp [loop_nil] at h
  | cons t rest ih =>
    have hrest : ∀ x ∈ rest, ¬ isTerminal x := fun x hx => hnt x (by simp [hx])
    rcases token_kinds t with ht | ht | ht | ht
    · exact absurd ht (hnt t (by simp))
    · rw [loop_input version program linter t ht] at h ⊢
      by_cases hf : f = none
      · rw [if_pos hf] at h ⊢
        rw [ih _ _ hrest h, inputSources_cons_pos ht]
        simp [hf]
      · rw [if_neg hf, if_neg hf]
    · obtain ⟨k, hk⟩ := (checkOf_isSome_iff t).2 ht
      rw [loop_check version program linter t k hk] at h ⊢
      rw [ih _ _ hrest h, inputSources_cons_neg (not_isInputSource_of_isCheckFlag ht)]
    · rw [loop_malformed version program linter t ht] at h ⊢
      rw [ih _ _ hrest h, inputSources_cons_neg (not_isInputSource_of_isMalformed ht)]

/-- The check flags have no influence on the return value, on `*in_file` or on
what is written: the loop agrees in these with the loop on the tokens that are
not check flags, whatever kinds were collected before. -/
theorem loop_filter_checks (version : String) (program : CStr) (linter : Linter)
    (args : List CStr) (cs cs' : List LinterChecks) (f : Option CStr) :
    (ParseFlags.loop version program linter args cs f).ret =
        (ParseFlags.loop version program linter
          (args.filter (fun t => ¬ isCheckFlag t)) cs' f).ret ∧
      (ParseFlags.loop version program linter args cs f).in_file =
        (ParseFlags.loop version program linter
          (args.filter (fun t => ¬ isCheckFlag t)) cs' f).in_file ∧
      writes (ParseFlags.loop version program linter args cs f).events =
        writes (ParseFlags.loop version program linter
          (args.filter (fun t => ¬ isCheckFlag t)) cs' f).events := by
  induction args generalizing cs cs' f with
  | nil => simp [loop_nil, writes]
  | cons t rest ih =>
    by_cases hc : isCheckFlag t
    · obtain ⟨k, hk⟩ := (checkOf_isSome_iff t).2 hc
      have hfil : (t :: rest).filter (fun t => ¬ isCheckFlag t) =
          rest.filter (fun t => ¬ isCheckFlag t) := by
        simp [List.filter_cons, hc]
      rw [hfil, loop_check version program linter t k hk]
      exact ih _ _ _
    · have hfil : (t :: rest).filter (fun t => ¬ isCheckFlag t) =
          t :: rest.filter (fun t => ¬ isCheckFlag t) := by
        simp [List.filter_cons, hc]
      rw [hfil]
      rcases token_kinds t with h | h | h | h
      · rw [loop_terminal version program linter t h, loop_terminal version program linter t h]
        exact ⟨rfl, rfl, rfl⟩
      · rw [loop_input version program linter t h, loop_input version program linter t h]
        by_cases hf : f = none
        · rw [if_pos hf, if_pos hf]
          exact ih _ _ _
        · rw [if_neg hf, if_neg hf]
          exact ⟨rfl, rfl, rfl⟩
      · exact absurd h hc
      · rw [loop_malformed version program linter t h, loop_malformed version program linter t h]
        exact ih _ _ _

/-! ## The driver -/

theorem ParseFlags_eq_loop (version : String) (argv : List CStr) (linter : Linter) :
    ParseFlags version argv linter =
      ParseFlags.loop version (argv.headD ⟨[], by simp⟩) linter (argv.drop 1) [] none := rfl

theorem main_of_ret_false (ReadFile : Option CStr → Bool) (version : String) (argv : List CStr)
    (h : (ParseFlags version argv {}).ret = false) :
    main ReadFile version argv = { code := 2, events := (ParseFlags version argv {}).events } := by
  simp [main, h]

theorem main_of_ret_true (ReadFile : Option CStr → Bool) (version : String) (argv : List CStr)
    (h : (ParseFlags version argv {}).ret = true) :
    main ReadFile version argv =
      { code := if ReadFile (ParseFlags version argv {}).in_file then 0 else 1,
        events := (ParseFlags version argv {}).events ++
          [Event.read (ParseFlags version argv {}).in_file] } := by
  by_cases hr : ReadFile (ParseFlags version argv {}).in_file = true
  · simp [main, h, hr]
  · simp [main, h, hr]

theorem linter_eq (a b : Linter) : a = b := by
  cases a
  cases b
  rfl

/-- C1: for every argument vector and every outcome of `ReadFile`, `main` returns
2 exactly when `ParseFlags` returns false, 1 exactly when `ParseFlags` returns
true and `ReadFile` fails, 0 exactly when `ParseFlags` returns true and
`ReadFile` succeeds; `ReadFile` is called once, on `*in_file`, when `ParseFlags`
returns true and is not called when it returns false. -/
theorem main_exit_code (ReadFile : Option CStr → Bool) (version : String) (argv : List CStr) :
    ((main ReadFile version argv).code = 2 ↔ (ParseFlags version argv {}).ret = false) ∧
    ((main ReadFile version argv).code = 1 ↔
      ((ParseFlags version argv {}).ret = true ∧
        ReadFile (ParseFlags version argv {}).in_file = false)) ∧
    ((main ReadFile version argv).code = 0 ↔
      ((ParseFlags version argv {}).ret = true ∧
        ReadFile (ParseFlags version argv {}).in_file = true)) ∧
    readCalls (main ReadFile version argv).events =
      (if (ParseFlags version argv {}).ret = true
        then [(ParseFlags version argv {}).in_file] else []) := by
  have hread : readCalls (ParseFlags version argv {}).events = [] := loop_readCalls _ _ _ _ _ _
  by_cases h : (ParseFlags version argv {}).ret = true
  · rw [main_of_ret_true ReadFile version argv h]
    by_cases hr : ReadFile (ParseFlags version argv {}).in_file = true
    · simp [h, hr, readCalls_append, hread, readCalls]
    · simp [h, hr, readCalls_append, hread, readCalls]
  · have h' : (ParseFlags version argv {}).ret = false := by simpa using h
    rw [main_of_ret_false ReadFile version argv h']
    simp [h', hread]

/-- C2: when some token after the program name is `--help`, `-h` or `--version`,
wherever it stands and whatever the other tokens are, `ParseFlags` returns
false, `main` returns 2, and neither `Linter::scheduleChecks` nor `ReadFile` is
called. -/
theorem terminal_flag_short_circuits (ReadFile : Option CStr → Bool) (version : String)
    (argv : List CStr) (h : ∃ t ∈ argv.drop 1, isTerminal t) :
    (ParseFlags version argv {}).ret = false ∧
    (main ReadFile version argv).code = 2 ∧
    scheduleCalls (main ReadFile version argv).events = [] ∧
    readCalls (main ReadFile version argv).events = [] := by
  have hret : (ParseFlags version argv {}).ret = false := by
    cases hr : (ParseFlags version argv {}).ret with
    | false => rfl
    | true =>
      rw [ParseFlags_eq_loop, loop_ret_iff] at hr
      obtain ⟨t, ht, hterm⟩ := h
      exact absurd hterm (hr.1 t ht)
  have hfalse := loop_of_ret_false version _ {} (argv.drop 1) [] none hret
  rw [← ParseFlags_eq_loop] at hfalse
  have hread : readCalls (ParseFlags version argv {}).events = [] := loop_readCalls _ _ _ _ _ _
  rw [main_of_ret_false ReadFile version argv hret]
  exact ⟨hret, rfl, hfalse.2.1, hread⟩

theorem terminal_flag_short_circuits_witness :
    (∃ t ∈ [spirv_lint, flag_check_all, a_spv, flag_help].drop 1, isTerminal t) ∧
    (ParseFlags "v2024.1" [spirv_lint, flag_check_all, a_spv, flag_help] {}).ret = false ∧
    (main readOk "v2024.1" [spirv_lint, flag_check_all, a_spv, flag_help]).code = 2 ∧
    scheduleCalls (main readOk "v2024.1" [spirv_lint, flag_check_all, a_spv, flag_help]).events
      = [] ∧
    readCalls (main readOk "v2024.1" [spirv_lint, flag_check_all, a_spv, flag_help]).events
      = [] :=
  ⟨by decide, terminal_flag_short_circuits readOk "v2024.1"
    [spirv_lint, flag_check_all, a_spv, flag_help] (by decide)⟩

/-- C6: when `ParseFlags` returns true, `*in_file` is the single input-source
token after the program name when there is one and the null pointer when there
is none; whatever it holds is an input-source token, never a check flag or an
unrecognised token that starts with `-`. -/
theorem in_file_resolved (version : String) (argv : List CStr) (linter : Linter)
    (h : (ParseFlags version argv linter).ret = true) :
    ((inputSources (argv.drop 1) = [] ∧ (ParseFlags version argv linter).in_file = none) ∨
      (∃ t, inputSources (argv.drop 1) = [t] ∧
        (ParseFlags version argv linter).in_file = some t)) ∧
    (∀ t, (ParseFlags version argv linter).in_file = some t →
      t ∈ argv.drop 1 ∧ isInputSource t ∧ ¬ isCheckFlag t ∧ ¬ isMalformed t) := by
  rw [ParseFlags_eq_loop] at h ⊢
  have hlen := ((loop_ret_iff version _ linter _ _ _).1 h).2
  rw [loop_of_ret_true version _ linter _ _ _ h]
  simp only [if_true] at hlen ⊢
  have hmem : ∀ t ∈ inputSources (argv.drop 1), t ∈ argv.drop 1 ∧ isInputSource t := by
    intro t ht
    simpa [inputSources, List.mem_filter] using ht
  cases hin : inputSources (argv.drop 1) with
  | nil => simp
  | cons a as =>
    rw [hin] at hlen hmem
    have has : as = [] := by
      cases as with
      | nil => rfl
      | cons b bs => simp at hlen
    subst has
    have ha := hmem a (by simp)
    refine ⟨Or.inr ⟨a, rfl, by simp⟩, ?_⟩
    intro t ht
    have : a = t := by simpa using ht
    subst this
    exact ⟨ha.1, ha.2, not_isCheckFlag_of_isInputSource ha.2,
      fun hm => not_isInputSource_of_isMalformed hm ha.2⟩

theorem in_file_resolved_witness :
    (ParseFlags "v2024.1" [spirv_lint, flag_check_undefs, flag_bogus, a_spv] {}).ret = true ∧
    (((inputSources ([spirv_lint, flag_check_undefs, flag_bogus, a_spv].drop 1) = [] ∧
        (ParseFlags "v2024.1" [spirv_lint, flag_check_undefs, flag_bogus, a_spv] {}).in_file
          = none) ∨
      (∃ t, inputSources ([spirv_lint, flag_check_undefs, flag_bogus, a_spv].drop 1) = [t] ∧
        (ParseFlags "v2024.1" [spirv_lint, flag_check_undefs, flag_bogus, a_spv] {}).in_file
          = some t)) ∧
    (∀ t, (ParseFlags "v2024.1" [spirv_lint, flag_check_undefs, flag_bogus, a_spv] {}).in_file
        = some t →
      t ∈ [spirv_lint, flag_check_undefs, flag_bogus, a_spv].drop 1 ∧ isInputSource t ∧
        ¬ isCheckFlag t ∧ ¬ isMalformed t)) :=
  ⟨by decide, in_file_resolved "v2024.1" [spirv_lint, flag_check_undefs, flag_bogus, a_spv] {}
    (by decide)⟩

theorem main_code_eq_two_iff (ReadFile : Option CStr → Bool) (version : String)
    (argv : List CStr) :
    (main ReadFile version argv).code = 2 ↔ (ParseFlags version argv {}).ret = false := by
  by_cases h : (ParseFlags version argv {}).ret = true
  · rw [main_of_ret_true ReadFile version argv h]
    by_cases hr : ReadFile (ParseFlags version argv {}).in_file = true
    · simp [h, hr]
    · simp [h, hr]
  · have h' : (ParseFlags version argv {}).ret = false := by simpa using h
    rw [main_of_ret_false ReadFile version argv h']
    simp [h']

/-- C3: when the tokens after the program name hold a first input source `a`
and a second one `b` (equal to `a` or not) with no terminal flag before `b`,
`ParseFlags` reports the one error-severity diagnostic "More than one input
file specified" on reaching `b`, stops there whatever follows, and returns
false with `*in_file` still the first input source; `main` returns 2 and
neither `Linter::scheduleChecks` nor `ReadFile` is called. -/
theorem second_input_is_an_error (ReadFile : Option CStr → Bool) (version : String)
    (program a b : CStr) (pre mid post : List CStr)
    (hpre : ∀ t ∈ pre, ¬ isTerminal t ∧ ¬ isInputSource t)
    (ha : isInputSource a)
    (hmid : ∀ t ∈ mid, ¬ isTerminal t ∧ ¬ isInputSource t)
    (hb : isInputSource b) :
    (ParseFlags version (program :: (pre ++ a :: (mid ++ b :: post))) {}).ret = false ∧
    (ParseFlags version (program :: (pre ++ a :: (mid ++ b :: post))) {}).in_file = some a ∧
    (ParseFlags version (program :: (pre ++ a :: (mid ++ b :: post))) {}).events =
      Error opt_diagnostic "More than one input file specified" ∧
    (ParseFlags version (program :: (pre ++ a :: (mid ++ b :: post))) {}).events =
      [Event.err "error: ", Event.err "More than one input file specified\n"] ∧
    main ReadFile version (program :: (pre ++ a :: (mid ++ b :: post))) =
      { code := 2,
        events := [Event.err "error: ", Event.err "More than one input file specified\n"] } ∧
    scheduleCalls (main ReadFile version (program :: (pre ++ a :: (mid ++ b :: post)))).events
      = [] ∧
    readCalls (main ReadFile version (program :: (pre ++ a :: (mid ++ b :: post)))).events
      = [] := by
  have hparse : ParseFlags version (program :: (pre ++ a :: (mid ++ b :: post))) {} =
      secondInput {} (some a) := by
    rw [ParseFlags_eq_loop]
    simp only [List.drop_succ_cons, List.drop_zero]
    rw [loop_skip version _ {} pre _ _ _ hpre, loop_input version _ {} a ha, if_pos rfl,
      loop_skip version _ {} mid _ _ _ hmid, loop_input version _ {} b hb,
      if_neg (by simp)]
  have hev : Error opt_diagnostic moreThanOne =
      [Event.err "error: ", Event.err "More than one input file specified\n"] := by decide
  have hret : (ParseFlags version (program :: (pre ++ a :: (mid ++ b :: post))) {}).ret
      = false := by rw [hparse]; rfl
  rw [main_of_ret_false ReadFile version _ hret, hparse]
  refine ⟨rfl, rfl, rfl, hev, ?_, ?_, ?_⟩
  · simp only [secondInput, hev]
  · simp only [secondInput, hev]; rfl
  · simp only [secondInput, hev]; rfl

theorem second_input_is_an_error_witness :
    (∀ t ∈ [flag_check_all], ¬ isTerminal t ∧ ¬ isInputSource t) ∧
    isInputSource a_spv ∧
    (∀ t ∈ [flag_bogus], ¬ isTerminal t ∧ ¬ isInputSource t) ∧
    isInputSource dash ∧
    (ParseFlags "v2024.1"
      (spirv_lint :: ([flag_check_all] ++ a_spv :: ([flag_bogus] ++ dash :: [flag_help])))
      {}).ret = false ∧
    (ParseFlags "v2024.1"
      (spirv_lint :: ([flag_check_all] ++ a_spv :: ([flag_bogus] ++ dash :: [flag_help])))
      {}).in_file = some a_spv ∧
    (ParseFlags "v2024.1"
      (spirv_lint :: ([flag_check_all] ++ a_spv :: ([flag_bogus] ++ dash :: [flag_help])))
      {}).events = Error opt_diagnostic "More than one input file specified" ∧
    (ParseFlags "v2024.1"
      (spirv_lint :: ([flag_check_all] ++ a_spv :: ([flag_bogus] ++ dash :: [flag_help])))
      {}).events = [Event.err "error: ", Event.err "More than one input file specified\n"] ∧
    main readOk "v2024.1"
      (spirv_lint :: ([flag_check_all] ++ a_spv :: ([flag_bogus] ++ dash :: [flag_help]))) =
      { code := 2,
        events := [Event.err "error: ", Event.err "More than one input file specified\n"] } ∧
    scheduleCalls (main readOk "v2024.1"
      (spirv_lint :: ([flag_check_all] ++ a_spv :: ([flag_bogus] ++ dash :: [flag_help])))).events
      = [] ∧
    readCalls (main readOk "v2024.1"
      (spirv_lint :: ([flag_check_all] ++ a_spv :: ([flag_bogus] ++ dash :: [flag_help])))).events
      = [] :=
  ⟨by decide, by decide, by decide, by decide,
    second_input_is_an_error readOk "v2024.1" spirv_lint a_spv dash [flag_check_all] [flag_bogus]
      [flag_help] (by decide) (by decide) (by decide) (by decide)⟩

/-- C9: the return value of `ParseFlags` does not depend on the order of the
tokens after the program name: it is true exactly when they hold no terminal
flag and at most one input source, so two argument vectors whose tokens after
the program name are permutations of one another give the same return value,
and `main` returns 2 for one exactly when it does for the other. -/
theorem parse_outcome_order_independent (ReadFile : Option CStr → Bool) (version : String)
    (argv argv' : List CStr) (linter : Linter)
    (hperm : (argv.drop 1).Perm (argv'.drop 1)) :
    ((ParseFlags version argv linter).ret = true ↔
      ((∀ t ∈ argv.drop 1, ¬ isTerminal t) ∧ (inputSources (argv.drop 1)).length ≤ 1)) ∧
    (ParseFlags version argv linter).ret = (ParseFlags version argv' linter).ret ∧
    ((main ReadFile version argv).code = 2 ↔ (main ReadFile version argv').code = 2) := by
  have hiff : ∀ (l : Linter) (v : List CStr), (ParseFlags version v l).ret = true ↔
      ((∀ t ∈ v.drop 1, ¬ isTerminal t) ∧ (inputSources (v.drop 1)).length ≤ 1) := by
    intro l v
    rw [ParseFlags_eq_loop, loop_ret_iff]
    simp
  have hsame : ∀ l : Linter, (ParseFlags version argv l).ret = true ↔
      (ParseFlags version argv' l).ret = true := by
    intro l
    rw [hiff, hiff]
    have hlen : (inputSources (argv.drop 1)).length = (inputSources (argv'.drop 1)).length :=
      (hperm.filter _).length_eq
    rw [hlen]
    constructor
    · rintro ⟨h1, h2⟩
      exact ⟨fun t ht => h1 t (hperm.mem_iff.2 ht), h2⟩
    · rintro ⟨h1, h2⟩
      exact ⟨fun t ht => h1 t (hperm.mem_iff.1 ht), h2⟩
  refine ⟨hiff linter argv, Bool.eq_iff_iff.2 (hsame linter), ?_⟩
  rw [main_code_eq_two_iff ReadFile version argv, main_code_eq_two_iff ReadFile version argv']
  have := hsame {}
  constructor
  · intro h
    cases h' : (ParseFlags version argv' {}).ret with
    | false => rfl
    | true => rw [this.2 h'] at h; cases h
  · intro h
    cases h' : (ParseFlags version argv {}).ret with
    | false => rfl
    | true => rw [this.1 h'] at h; cases h

theorem parse_outcome_order_independent_witness :
    ([spirv_lint, a_spv, flag_check_all, flag_bogus].drop 1).Perm
      ([spirv_lint, flag_bogus, flag_check_all, a_spv].drop 1) ∧
    (((ParseFlags "v2024.1" [spirv_lint, a_spv, flag_check_all, flag_bogus] {}).ret = true ↔
      ((∀ t ∈ [spirv_lint, a_spv, flag_check_all, flag_bogus].drop 1, ¬ isTerminal t) ∧
        (inputSources ([spirv_lint, a_spv, flag_check_all, flag_bogus].drop 1)).length ≤ 1)) ∧
    (ParseFlags "v2024.1" [spirv_lint, a_spv, flag_check_all, flag_bogus] {}).ret =
      (ParseFlags "v2024.1" [spirv_lint, flag_bogus, flag_check_all, a_spv] {}).ret ∧
    ((main readFails "v2024.1" [spirv_lint, a_spv, flag_check_all, flag_bogus]).code = 2 ↔
      (main readFails "v2024.1" [spirv_lint, flag_bogus, flag_check_all, a_spv]).code = 2)) :=
  ⟨by decide, parse_outcome_order_independent readFails "v2024.1"
    [spirv_lint, a_spv, flag_check_all, flag_bogus]
    [spirv_lint, flag_bogus, flag_check_all, a_spv] {} (by decide)⟩

/-- Two argument vectors with the same program name and the same tokens other
than check flags give the same return value, the same `*in_file` and the same
writes. -/
theorem ParseFlags_agree (version : String) (argv argv' : List CStr) (linter : Linter)
    (hprog : argv.head? = argv'.head?)
    (hrest : (argv.drop 1).filter (fun t => ¬ isCheckFlag t) =
      (argv'.drop 1).filter (fun t => ¬ isCheckFlag t)) :
    (ParseFlags version argv linter).ret = (ParseFlags version argv' linter).ret ∧
    (ParseFlags version argv linter).in_file = (ParseFlags version argv' linter).in_file ∧
    writes (ParseFlags version argv linter).events =
      writes (ParseFlags version argv' linter).events := by
  have hhead : argv.headD ⟨[], by simp⟩ = argv'.headD ⟨[], by simp⟩ := by
    cases argv <;> cases argv' <;> simp_all
  rw [ParseFlags_eq_loop, ParseFlags_eq_loop, hhead]
  obtain ⟨h1, h2, h3⟩ := loop_filter_checks version (argv'.headD ⟨[], by simp⟩) linter
    (argv.drop 1) [] [] none
  obtain ⟨h1', h2', h3'⟩ := loop_filter_checks version (argv'.headD ⟨[], by simp⟩) linter
    (argv'.drop 1) [] [] none
  rw [h1, h2, h3, h1', h2', h3', hrest]
  exact ⟨rfl, rfl, rfl⟩

/-- C10: the check flags have no influence on the outcome: two argument vectors
with the same program name that are equal once the tokens `--check-all`,
`--check-derivatives` and `--check-undefs` are deleted give, for the same
`ReadFile`, the same return value of `ParseFlags`, the same `*in_file`, the same
writes to the output streams (diagnostics and usage text) and the same exit
code of `main`; and whenever parsing succeeds and the input can be read, `main`
returns 0. -/
theorem checks_do_not_influence_outcome (ReadFile : Option CStr → Bool) (version : String)
    (argv argv' : List CStr)
    (hprog : argv.head? = argv'.head?)
    (hrest : (argv.drop 1).filter (fun t => ¬ isCheckFlag t) =
      (argv'.drop 1).filter (fun t => ¬ isCheckFlag t)) :
    (ParseFlags version argv {}).ret = (ParseFlags version argv' {}).ret ∧
    (ParseFlags version argv {}).in_file = (ParseFlags version argv' {}).in_file ∧
    writes (ParseFlags version argv {}).events = writes (ParseFlags version argv' {}).events ∧
    writes (main ReadFile version argv).events = writes (main ReadFile version argv').events ∧
    readCalls (main ReadFile version argv).events =
      readCalls (main ReadFile version argv').events ∧
    (main ReadFile version argv).code = (main ReadFile version argv').code ∧
    ((ParseFlags version argv {}).ret = true →
      ReadFile (ParseFlags version argv {}).in_file = true →
      (main ReadFile version argv).code = 0) := by
  obtain ⟨h1, h2, h3⟩ := ParseFlags_agree version argv argv' {} hprog hrest
  have hr : readCalls (ParseFlags version argv {}).events = [] := loop_readCalls _ _ _ _ _ _
  have hr' : readCalls (ParseFlags version argv' {}).events = [] := loop_readCalls _ _ _ _ _ _
  refine ⟨h1, h2, h3, ?_⟩
  cases h : (ParseFlags version argv {}).ret with
  | false =>
    have h' : (ParseFlags version argv' {}).ret = false := by rw [← h1, h]
    rw [main_of_ret_false ReadFile version argv h, main_of_ret_false ReadFile version argv' h']
    simp [h3, hr, hr']
  | true =>
    have h' : (ParseFlags version argv' {}).ret = true := by rw [← h1, h]
    rw [main_of_ret_true ReadFile version argv h, main_of_ret_true ReadFile version argv' h']
    simp only [writes_append, readCalls_append, h3, hr, hr', h2, true_and]
    intro _ hread
    simp [hread]

theorem checks_do_not_influence_outcome_witness :
    [spirv_lint, flag_check_all, a_spv, flag_check_all].head? =
      [spirv_lint, a_spv, flag_check_undefs].head? ∧
    ([spirv_lint, flag_check_all, a_spv, flag_check_all].drop 1).filter
        (fun t => ¬ isCheckFlag t) =
      ([spirv_lint, a_spv, flag_check_undefs].drop 1).filter (fun t => ¬ isCheckFlag t) ∧
    ((ParseFlags "v2024.1" [spirv_lint, flag_check_all, a_spv, flag_check_all] {}).ret =
      (ParseFlags "v2024.1" [spirv_lint, a_spv, flag_check_undefs] {}).ret ∧
    (ParseFlags "v2024.1" [spirv_lint, flag_check_all, a_spv, flag_check_all] {}).in_file =
      (ParseFlags "v2024.1" [spirv_lint, a_spv, flag_check_undefs] {}).in_file ∧
    writes (ParseFlags "v2024.1" [spirv_lint, flag_check_all, a_spv, flag_check_all] {}).events =
      writes (ParseFlags "v2024.1" [spirv_lint, a_spv, flag_check_undefs] {}).events ∧
    writes (main readOnlyA "v2024.1" [spirv_lint, flag_check_all, a_spv, flag_check_all]).events =
      writes (main readOnlyA "v2024.1" [spirv_lint, a_spv, flag_check_undefs]).events ∧
    readCalls (main readOnlyA "v2024.1"
        [spirv_lint, flag_check_all, a_spv, flag_check_all]).events =
      readCalls (main readOnlyA "v2024.1" [spirv_lint, a_spv, flag_check_undefs]).events ∧
    (main readOnlyA "v2024.1" [spirv_lint, flag_check_all, a_spv, flag_check_all]).code =
      (main readOnlyA "v2024.1" [spirv_lint, a_spv, flag_check_undefs]).code ∧
    ((ParseFlags "v2024.1" [spirv_lint, flag_check_all, a_spv, flag_check_all] {}).ret = true →
      readOnlyA (ParseFlags "v2024.1"
        [spirv_lint, flag_check_all, a_spv, flag_check_all] {}).in_file = true →
      (main readOnlyA "v2024.1" [spirv_lint, flag_check_all, a_spv, flag_check_all]).code = 0)) :=
  ⟨by decide, by decide, checks_do_not_influence_outcome readOnlyA "v2024.1"
    [spirv_lint, flag_check_all, a_spv, flag_check_all] [spirv_lint, a_spv, flag_check_undefs]
    (by decide) (by decide)⟩

/-- C5, as stated, fails: on `spirv-lint --bogus a.spv` the token `--bogus` is a
malformed flag and there is no terminal flag, yet `ParseFlags` returns true
without writing any diagnostic, and `main` calls `ReadFile` on `a.spv` and
returns 0. -/
theorem malformed_flag_not_rejected :
    isMalformed flag_bogus ∧
    (∀ t ∈ [spirv_lint, flag_bogus, a_spv].drop 1, ¬ isTerminal t) ∧
    (ParseFlags "v2024.1" [spirv_lint, flag_bogus, a_spv] {}).ret = true ∧
    (ParseFlags "v2024.1" [spirv_lint, flag_bogus, a_spv] {}).events = [Event.schedule []] ∧
    main readOk "v2024.1" [spirv_lint, flag_bogus, a_spv] =
      { code := 0, events := [Event.schedule [], Event.read (some a_spv)] } := by
  decide

/-- C5, amended: in an argument vector with a malformed flag and no terminal
flag, the malformed flags are passed over without a diagnostic: `ParseFlags`
does what it does on the vector without them. It returns false exactly when the
vector holds two or more input sources, and then it has written the one error
"More than one input file specified", `main` returns 2 and `ReadFile` is not
called; otherwise it returns true and has written nothing, and `main` calls
`ReadFile` on `*in_file` and does not return 2. -/
theorem malformed_flags_are_passed_over (ReadFile : Option CStr → Bool) (version : String)
    (argv : List CStr)
    (hm : ∃ t ∈ argv.drop 1, isMalformed t)
    (hnt : ∀ t ∈ argv.drop 1, ¬ isTerminal t) :
    ParseFlags version argv {} =
      ParseFlags version
        (argv.take 1 ++ (argv.drop 1).filter (fun t => ¬ isMalformed t)) {} ∧
    ((ParseFlags version argv {}).ret = false ↔ 2 ≤ (inputSources (argv.drop 1)).length) ∧
    ((ParseFlags version argv {}).ret = false →
      (ParseFlags version argv {}).events =
        [Event.err "error: ", Event.err "More than one input file specified\n"] ∧
      (main ReadFile version argv).code = 2 ∧
      readCalls (main ReadFile version argv).events = []) ∧
    ((ParseFlags version argv {}).ret = true →
      writes (ParseFlags version argv {}).events = [] ∧
      (main ReadFile version argv).code ≠ 2 ∧
      readCalls (main ReadFile version argv).events = [(ParseFlags version argv {}).in_file]) := by
  have hret := loop_ret_iff version (argv.headD ⟨[], by simp⟩) {} (argv.drop 1) [] none
  rw [← ParseFlags_eq_loop] at hret
  have hread : readCalls (ParseFlags version argv {}).events = [] := loop_readCalls _ _ _ _ _ _
  refine ⟨?_, ?_, ?_, ?_⟩
  · cases argv with
    | nil => obtain ⟨t, ht, _⟩ := hm; simp at ht
    | cons p rest =>
      simp only [List.take_succ_cons, List.take_zero, List.drop_succ_cons, List.drop_zero,
        List.singleton_append]
      rw [ParseFlags_eq_loop, ParseFlags_eq_loop]
      simp only [List.headD_cons, List.drop_succ_cons, List.drop_zero]
      rw [loop_filter_malformed]
  · constructor
    · intro h
      by_contra hlen
      have : (ParseFlags version argv {}).ret = true :=
        hret.2 ⟨hnt, by simp only [if_true]; omega⟩
      rw [h] at this
      cases this
    · intro hlen
      cases h : (ParseFlags version argv {}).ret with
      | false => rfl
      | true =>
        have := (hret.1 h).2
        simp only [if_true] at this
        omega
  · intro h
    have hev : Error opt_diagnostic moreThanOne =
        [Event.err "error: ", Event.err "More than one input file specified\n"] := by decide
    have hres := loop_of_ret_false_of_no_terminal version (argv.headD ⟨[], by simp⟩) {}
      (argv.drop 1) [] none hnt h
    rw [← ParseFlags_eq_loop] at hres
    refine ⟨?_, ?_, ?_⟩
    · rw [hres, secondInput, hev]
    · rw [main_of_ret_false ReadFile version argv h]
    · rw [main_of_ret_false ReadFile version argv h]
      exact hread
  · intro h
    have hres := loop_of_ret_true version (argv.headD ⟨[], by simp⟩) {} (argv.drop 1) [] none h
    rw [← ParseFlags_eq_loop] at hres
    refine ⟨?_, ?_, ?_⟩
    · rw [hres]
      rfl
    · rw [main_of_ret_true ReadFile version argv h]
      by_cases hr : ReadFile (ParseFlags version argv {}).in_file = true <;> simp [hr]
    · rw [main_of_ret_true ReadFile version argv h]
      simp only [readCalls_append, hread, List.nil_append]
      rfl

theorem malformed_flags_are_passed_over_witness :
    (∃ t ∈ [spirv_lint, flag_bogus, a_spv, flag_check_all].drop 1, isMalformed t) ∧
    (∀ t ∈ [spirv_lint, flag_bogus, a_spv, flag_check_all].drop 1, ¬ isTerminal t) ∧
    (ParseFlags "v2024.1" [spirv_lint, flag_bogus, a_spv, flag_check_all] {} =
      ParseFlags "v2024.1"
        ([spirv_lint, flag_bogus, a_spv, flag_check_all].take 1 ++
          ([spirv_lint, flag_bogus, a_spv, flag_check_all].drop 1).filter
            (fun t => ¬ isMalformed t)) {} ∧
    ((ParseFlags "v2024.1" [spirv_lint, flag_bogus, a_spv, flag_check_all] {}).ret = false ↔
      2 ≤ (inputSources ([spirv_lint, flag_bogus, a_spv, flag_check_all].drop 1)).length) ∧
    ((ParseFlags "v2024.1" [spirv_lint, flag_bogus, a_spv, flag_check_all] {}).ret = false →
      (ParseFlags "v2024.1" [spirv_lint, flag_bogus, a_spv, flag_check_all] {}).events =
        [Event.err "error: ", Event.err "More than one input file specified\n"] ∧
      (main readFails "v2024.1" [spirv_lint, flag_bogus, a_spv, flag_check_all]).code = 2 ∧
      readCalls (main readFails "v2024.1"
        [spirv_lint, flag_bogus, a_spv, flag_check_all]).events = []) ∧
    ((ParseFlags "v2024.1" [spirv_lint, flag_bogus, a_spv, flag_check_all] {}).ret = true →
      writes (ParseFlags "v2024.1" [spirv_lint, flag_bogus, a_spv, flag_check_all] {}).events
        = [] ∧
      (main readFails "v2024.1" [spirv_lint, flag_bogus, a_spv, flag_check_all]).code ≠ 2 ∧
      readCalls (main readFails "v2024.1"
          [spirv_lint, flag_bogus, a_spv, flag_check_all]).events =
        [(ParseFlags "v2024.1" [spirv_lint, flag_bogus, a_spv, flag_check_all] {}).in_file])) :=
  ⟨by decide, by decide, malformed_flags_are_passed_over readFails "v2024.1"
    [spirv_lint, flag_bogus, a_spv, flag_check_all] (by decide) (by decide)⟩

/-- C7, as stated, fails: `Linter::scheduleChecks` leaves the same linter behind
for the request `[DERIVATIVES]` and for the request `[UNDEFS]`, whose pending
work differs according to the specification; so no reading of the linter gives
the pending work the specification describes. -/
theorem scheduleChecks_stores_nothing :
    Linter.scheduleChecks {} [LinterChecks.DERIVATIVES] =
      Linter.scheduleChecks {} [LinterChecks.UNDEFS] ∧
    Spec.scheduleChecks [LinterChecks.DERIVATIVES] = [LinterChecks.DERIVATIVES] ∧
    Spec.scheduleChecks [LinterChecks.UNDEFS] = [LinterChecks.UNDEFS] ∧
    ¬ ∃ pending : Linter → List LinterChecks, ∀ requestedKinds : List LinterChecks,
      pending (Linter.scheduleChecks {} requestedKinds) = Spec.scheduleChecks requestedKinds := by
  refine ⟨rfl, by decide, by decide, ?_⟩
  rintro ⟨pending, h⟩
  have h1 := h [LinterChecks.DERIVATIVES]
  have h2 := h [LinterChecks.UNDEFS]
  have h3 : Spec.scheduleChecks [LinterChecks.DERIVATIVES] =
      Spec.scheduleChecks [LinterChecks.UNDEFS] := by
    rw [← h1, ← h2]
  revert h3
  decide

/-- C7, amended: `Linter::scheduleChecks` has an empty body: whatever kinds are
requested, the linter after the call is the linter before it, so any two
requests leave the same linter and nothing that can be read from the linter
depends on the request; `ParseFlags` likewise returns the linter it was given. -/
theorem scheduleChecks_is_a_stub (linter : Linter) (requestedKinds others : List LinterChecks)
    (version : String) (argv : List CStr) :
    linter.scheduleChecks requestedKinds = linter ∧
    linter.scheduleChecks requestedKinds = linter.scheduleChecks others ∧
    (∀ pending : Linter → List LinterChecks,
      pending (linter.scheduleChecks requestedKinds) = pending linter) ∧
    (ParseFlags version argv linter).linter = linter := by
  exact ⟨rfl, rfl, fun _ => rfl, linter_eq _ _⟩

end Lint
